import Mathlib

/-!
Verification of the dashboard alert engine and statistics calculators of the
CarabaoHRPortal repository (src/js/dashboard.js), against its natural-language
specification.

Shallow embedding conventions:
* A JavaScript `Date` value is modelled by its timestamp in milliseconds since
  the Unix epoch, as an `Int`.  An *invalid* date (`new Date(<unparseable>)`)
  is modelled by `none : Option Int`; every arithmetic comparison against the
  resulting `NaN` is false in JavaScript, which the `Option` matches make
  explicit.
* A date-valued record field (e.g. `emp.birth_date`) is modelled as
  `Option (Option Int)`: the outer layer is JavaScript truthiness of the raw
  field (`none` = absent / empty string), the inner layer is the result of
  `new Date(raw)` (`none` = present but unparseable).
* All dates live in one uniform timezone (the code pins everything to one
  business timezone by round-tripping through locale strings); calendar
  components are recovered with the standard civil-from-days algorithm.
* `Array.prototype.sort` is stable (ES2019); it is modelled by the stable
  `List.insertionSort` with the priority-rank preorder of the source.
-/

/-! ### Calendar arithmetic (model of the JS `Date` component operations) -/

def msPerDay : Int := 86400000

/-- `Math.ceil` of the exact rational `a / b` for positive `b`, on integers. -/
def ceilDiv (a b : Int) : Int := -((-a).fdiv b)

/-- Day number (days since 1970-01-01) of a timestamp: JS dates round toward
the beginning of the day for component extraction. -/
def dayNumber (t : Int) : Int := t.fdiv msPerDay

/-- Milliseconds elapsed since local midnight. -/
def timeOfDay (t : Int) : Int := t.emod msPerDay

/-- Civil (year, month 1..12, day 1..31) to day number; Hinnant's
`days_from_civil`, valid for all integer inputs, with day-of-month overflow
extending linearly exactly like the JS `MakeDay` operation. -/
def daysFromCivil (y m d : Int) : Int :=
  let y2 := if m ≤ 2 then y - 1 else y
  let era := y2.fdiv 400
  let yoe := y2 - era * 400
  let mp := (m + 9).emod 12
  let doy := (153 * mp + 2).fdiv 5 + d - 1
  let doe := yoe * 365 + yoe.fdiv 4 - yoe.fdiv 100 + doy
  era * 146097 + doe - 719468

/-- Day number back to civil (year, month 1..12, day); Hinnant's
`civil_from_days`. -/
def civilFromDays (z0 : Int) : Int × Int × Int :=
  let z := z0 + 719468
  let era := z.fdiv 146097
  let doe := z - era * 146097
  let yoe := (doe - doe.fdiv 1460 + doe.fdiv 36524 - doe.fdiv 146096).fdiv 365
  let y := yoe + era * 400
  let doy := doe - (365 * yoe + yoe.fdiv 4 - yoe.fdiv 100)
  let mp := (5 * doy + 2).fdiv 153
  let d := doy - (153 * mp + 2).fdiv 5 + 1
  let m := mp + (if mp < 10 then 3 else -9)
  (y + (if m ≤ 2 then 1 else 0), m, d)

/-- JS `date.getFullYear()`. -/
def getFullYear (t : Int) : Int := (civilFromDays (dayNumber t)).1

/-- JS `date.getMonth()` (0-based month). -/
def getMonth (t : Int) : Int := (civilFromDays (dayNumber t)).2.1 - 1

/-- JS `date.getDate()` (1-based day of month). -/
def getDate (t : Int) : Int := (civilFromDays (dayNumber t)).2.2

/-- JS `new Date(y, m, d)` (month 0-based, local midnight), including the
two-digit-year adjustment and month/day overflow normalization. -/
def mkDateYMD (y m d : Int) : Int :=
  let y1 := if 0 ≤ y ∧ y ≤ 99 then y + 1900 else y
  let y2 := y1 + m.fdiv 12
  let m2 := m.emod 12
  (daysFromCivil y2 (m2 + 1) d) * msPerDay

/-- JS `date.setMonth(date.getMonth() + 3)`: same year, day-of-month and
time-of-day, month advanced by three with overflow normalization
(dashboard.js lines 534-535). -/
def setMonthPlus3 (t : Int) : Int :=
  let m := getMonth t + 3
  let y2 := getFullYear t + m.fdiv 12
  let m2 := m.emod 12
  (daysFromCivil y2 (m2 + 1) (getDate t)) * msPerDay + timeOfDay t

/-- `daysDifference(date1, date2)` of dashboard.js lines 70-73:
`Math.ceil((date2 - date1) / (1000*60*60*24))`. -/
def daysDifference (date1 date2 : Int) : Int := ceilDiv (date2 - date1) msPerDay

/-- Two timestamps fall on the same calendar date; model of the
`toDateString()` comparison in `isToday` (dashboard.js lines 93-97). -/
def sameCalendarDay (t1 t2 : Int) : Bool :=
  decide (civilFromDays (dayNumber t1) = civilFromDays (dayNumber t2))

example : daysFromCivil 1970 1 1 = 0 := by decide
example : civilFromDays 0 = (1970, 1, 1) := by decide
example : daysFromCivil 2000 3 1 = 11017 := by decide
example : civilFromDays 11017 = (2000, 3, 1) := by decide
example : civilFromDays (daysFromCivil 2025 12 31) = (2025, 12, 31) := by decide
example : daysFromCivil 2025 2 30 = daysFromCivil 2025 3 2 := by decide
example : setMonthPlus3 (mkDateYMD 2025 0 1) = mkDateYMD 2025 3 1 := by decide
example : daysDifference 0 1 = 1 := by decide
example : daysDifference 1 0 = 0 := by decide
example : daysDifference 0 (10 * msPerDay) = 10 := by decide

/-! ### Data model -/

/-- Employee record, restricted to the fields the dashboard reads.
Date fields follow the two-layer convention described in the header. -/
structure Employee where
  full_name : String
  gender : String
  is_active : Bool
  is_resigned : Bool
  employment_status : String
  birth_date : Option (Option Int)
  join_date : Option (Option Int)
  current_contract_end : Option (Option Int)
  deriving DecidableEq, Repr

/-- Leave request record as consumed by the dashboard. -/
structure LeaveRequest where
  namaLengkap : String
  status : Option String
  timestamp : Option (Option Int)
  tanggalPermohonan : Option (Option Int)
  deriving DecidableEq, Repr

/-- Alert record pushed by `generateCriticalAlerts`; fields that only some
alert shapes carry are `Option`s (absent JS object properties). -/
structure Alert where
  type : String
  priority : String
  title : String
  description : String
  employee : Option Employee
  leave : Option LeaveRequest
  daysRemaining : Option Int
  daysPending : Option Int
  years : Option Int
  action : String
  deriving DecidableEq, Repr

/-! ### Status normalization (dashboard.js lines 332-338) -/

/-- Does the character list start with the given pattern? -/
def leadingMatch : List Char → List Char → Bool
  | _, [] => true
  | [], _ :: _ => false
  | a :: as, b :: bs => a == b && leadingMatch as bs

/-- Occurrence of `pat` anywhere in `hay`; model of JS `String.includes`. -/
def occursIn : List Char → List Char → Bool
  | [], pat => pat.isEmpty
  | a :: as, pat => leadingMatch (a :: as) pat || occursIn as pat

/-- JS `s.includes(pattern)`. -/
def hasSubstr (s pat : String) : Bool := occursIn s.toList pat.toList

/-- Whitespace as stripped by JS `String.trim` (the ASCII cases; the inputs
this code meets are plain spreadsheet strings). -/
def jsIsSpace (c : Char) : Bool :=
  c == ' ' || c == '\t' || c == '\n' || c == '\r'

/-- JS `raw.toLowerCase().trim()` (lower-case first, then strip both ends),
modelled character-wise so it evaluates in the kernel. -/
def jsLowerTrim (raw : String) : String :=
  let lowered := raw.toList.map Char.toLower
  String.mk ((lowered.dropWhile jsIsSpace).reverse.dropWhile jsIsSpace).reverse

/-- `normalizeLeaveStatus(status)`: falsy statuses default to Pending, then the
lower-cased, trimmed string is classified by substring containment. -/
def normalizeLeaveStatus (status : Option String) : String :=
  match status with
  | none => "Pending"
  | some raw =>
    if raw = "" then "Pending"
    else
      let s := jsLowerTrim raw
      if hasSubstr s "approved" || hasSubstr s "disetujui" then "Approved"
      else if hasSubstr s "declined" || hasSubstr s "rejected" || hasSubstr s "ditolak" then
        "Declined"
      else "Pending"

example : normalizeLeaveStatus (some "Disetujui") = "Approved" := by decide
example : normalizeLeaveStatus (some " APPROVED ") = "Approved" := by decide
example : normalizeLeaveStatus (some "awaiting review") = "Pending" := by decide

/-! ### Date rendering (dashboard.js lines 53-62) -/

/-- Indonesian short month names used by `toLocaleDateString('id-ID')`. -/
def idMonthShort (m : Int) : String :=
  if m = 1 then "Jan" else if m = 2 then "Feb" else if m = 3 then "Mar"
  else if m = 4 then "Apr" else if m = 5 then "Mei" else if m = 6 then "Jun"
  else if m = 7 then "Jul" else if m = 8 then "Agu" else if m = 9 then "Sep"
  else if m = 10 then "Okt" else if m = 11 then "Nov" else "Des"

/-- `formatWIBDate` on an already-constructed (possibly invalid) `Date`. -/
def formatWIBDateMs (t : Option Int) : String :=
  match t with
  | none => "Invalid Date"
  | some ms =>
    let c := civilFromDays (dayNumber ms)
    toString c.2.2 ++ " " ++ idMonthShort c.2.1 ++ " " ++ toString c.1

/-- `formatWIBDate` on a raw record field (`!date` guard returns "-"). -/
def formatWIBDate (field : Option (Option Int)) : String :=
  match field with
  | none => "-"
  | some p => formatWIBDateMs p

/-! ### Date helpers used by the alert rules -/

/-- `getBirthdayThisYear` (dashboard.js lines 104-108): same month/day as the
birth date in the reference instant's year; invalid birth dates propagate. -/
def getBirthdayThisYear (todayMs : Int) (birth : Option Int) : Option Int :=
  birth.map (fun b => mkDateYMD (getFullYear todayMs) (getMonth b) (getDate b))

/-- `getAnniversaryThisYear` (lines 115-119): identical construction from the
join date. -/
def getAnniversaryThisYear (todayMs : Int) (join : Option Int) : Option Int :=
  join.map (fun j => mkDateYMD (getFullYear todayMs) (getMonth j) (getDate j))

/-- `isToday` (lines 93-97): calendar-date equality; an invalid date never
equals today (its `toDateString()` is "Invalid Date"). -/
def isToday (todayMs : Int) (target : Option Int) : Bool :=
  match target with
  | none => false
  | some t => sameCalendarDay todayMs t

/-- `calculateYearsOfService` (lines 126-130): plain year subtraction. -/
def calculateYearsOfService (todayMs joinMs : Int) : Int :=
  getFullYear todayMs - getFullYear joinMs

/-- `DASHBOARD_CONFIG.PROBATION_WARNING_DAYS`. -/
def PROBATION_WARNING_DAYS : Int := 7

/-! ### The five alert rules (dashboard.js lines 476-568)

Each rule is `filter` (the JS `.filter`) followed by `filterMap` (the JS
`.forEach` that pushes zero or one alert per matching record).  A `none` from
the per-record function models the JS `NaN` comparisons all being false for an
unparseable date. -/

/-- The alert object pushed by the contract rule (lines 485-493). -/
def mkContractAlert (e : Employee) (d : Int) : Alert :=
  { type := "contract"
    priority := if d ≤ 7 then "high" else if d ≤ 14 then "medium" else "low"
    title := "Contract Expiring: " ++ e.full_name
    description := "Contract ends in " ++ toString d ++ " days (" ++
      formatWIBDate e.current_contract_end ++ ")"
    employee := some e
    leave := none
    daysRemaining := some d
    daysPending := none
    years := none
    action := "Review & Renew" }

/-- Per-employee body of the contract-expiring rule (lines 481-495). -/
def contractAlertFor (now : Int) (e : Employee) : Option Alert :=
  match e.current_contract_end with
  | some (some t) =>
    let d := daysDifference now t
    if 0 ≤ d ∧ d ≤ 30 then some (mkContractAlert e d) else none
  | _ => none

def contractRule (now : Int) (employees : List Employee) : List Alert :=
  (employees.filter (fun e => e.is_active && e.current_contract_end.isSome)).filterMap
    (contractAlertFor now)

/-- The alert object pushed by the birthday rule (lines 501-509). -/
def mkBirthdayAlert (e : Employee) : Alert :=
  { type := "birthday"
    priority := "medium"
    title := "🎂 Birthday Today: " ++ e.full_name
    description := "Send birthday wishes!"
    employee := some e
    leave := none
    daysRemaining := none
    daysPending := none
    years := none
    action := "Send Wishes" }

/-- Per-employee body of the birthday rule (lines 498-510). -/
def birthdayAlertFor (now : Int) (e : Employee) : Option Alert :=
  if isToday now (getBirthdayThisYear now (e.birth_date.bind id)) then
    some (mkBirthdayAlert e)
  else none

def birthdayRule (now : Int) (employees : List Employee) : List Alert :=
  (employees.filter (fun e => e.is_active && e.birth_date.isSome)).filterMap
    (birthdayAlertFor now)

/-- The alert object pushed by the anniversary rule (lines 519-527). -/
def mkAnniversaryAlert (e : Employee) (years : Int) : Alert :=
  { type := "anniversary"
    priority := "low"
    title := "🎉 Work Anniversary: " ++ e.full_name
    description := toString years ++ " years of service (" ++
      formatWIBDate e.join_date ++ ")"
    employee := some e
    leave := none
    daysRemaining := none
    daysPending := none
    years := some years
    action := "Send Congratulations" }

/-- Per-employee body of the work-anniversary rule (lines 513-529). -/
def anniversaryAlertFor (now : Int) (e : Employee) : Option Alert :=
  match e.join_date.bind id with
  | some j =>
    let d := daysDifference now (mkDateYMD (getFullYear now) (getMonth j) (getDate j))
    if 0 ≤ d ∧ d ≤ 7 then
      some (mkAnniversaryAlert e (calculateYearsOfService now j))
    else none
  | none => none

def anniversaryRule (now : Int) (employees : List Employee) : List Alert :=
  (employees.filter (fun e => e.is_active && e.join_date.isSome)).filterMap
    (anniversaryAlertFor now)

/-- The alert object pushed by the probation rule (lines 540-548). -/
def mkProbationAlert (e : Employee) (probationEnd d : Int) : Alert :=
  { type := "probation"
    priority := "high"
    title := "Probation Ending: " ++ e.full_name
    description := "Probation ends in " ++ toString d ++ " days (" ++
      formatWIBDateMs (some probationEnd) ++ ")"
    employee := some e
    leave := none
    daysRemaining := some d
    daysPending := none
    years := none
    action := "Review Performance" }

/-- Per-employee body of the probation-ending rule (lines 532-550). -/
def probationAlertFor (now : Int) (e : Employee) : Option Alert :=
  match e.join_date.bind id with
  | some j =>
    let probationEnd := setMonthPlus3 j
    let d := daysDifference now probationEnd
    if 0 ≤ d ∧ d ≤ PROBATION_WARNING_DAYS then
      some (mkProbationAlert e probationEnd d)
    else none
  | none => none

def probationRule (now : Int) (employees : List Employee) : List Alert :=
  (employees.filter (fun e => e.is_active && (e.employment_status = "Probation"))).filterMap
    (probationAlertFor now)

/-- `new Date(leave.timestamp || leave.tanggalPermohonan)` of line 554. -/
def requestParse (l : LeaveRequest) : Option Int :=
  match l.timestamp with
  | some p => p
  | none => l.tanggalPermohonan.bind id

/-- The alert object pushed by the pending-leave rule (lines 558-566). -/
def mkLeaveAlert (l : LeaveRequest) (d : Int) : Alert :=
  { type := "leave_pending"
    priority := if 5 < d then "high" else "medium"
    title := "Leave Pending: " ++ l.namaLengkap
    description := "Pending for " ++ toString d ++ " days"
    employee := none
    leave := some l
    daysRemaining := none
    daysPending := some d
    years := none
    action := "Review Request" }

/-- Per-request body of the pending-leave rule (lines 553-568). -/
def leaveAlertFor (now : Int) (l : LeaveRequest) : Option Alert :=
  match requestParse l with
  | some r =>
    let d := daysDifference r now
    if 2 < d then some (mkLeaveAlert l d) else none
  | none => none

def leaveRule (now : Int) (leaveData : List LeaveRequest) : List Alert :=
  (leaveData.filter (fun l => normalizeLeaveStatus l.status = "Pending")).filterMap
    (leaveAlertFor now)

/-! ### Priority sort and the full engine (lines 570-576) -/

/-- `priorityOrder = { high: 1, medium: 2, low: 3 }`; every generated alert
carries one of the three keys, so the total extension is immaterial. -/
def priorityOrder (p : String) : Nat :=
  if p = "high" then 1 else if p = "medium" then 2 else 3

/-- Comparator preorder of `alerts.sort((a, b) => ...)`. -/
def alertLE (a b : Alert) : Prop :=
  priorityOrder a.priority ≤ priorityOrder b.priority

instance : DecidableRel alertLE :=
  fun a b => inferInstanceAs (Decidable (priorityOrder a.priority ≤ priorityOrder b.priority))

/-- `Array.prototype.sort` is stable, and a stable sort under a total preorder
is unique, so insertion sort models it exactly. -/
def stableSortByPriority (alerts : List Alert) : List Alert :=
  alerts.insertionSort alertLE

/-- The unsorted alert collection, in rule-emission order. -/
def collectAlerts (now : Int) (employees : List Employee)
    (leaveData : List LeaveRequest) : List Alert :=
  contractRule now employees ++ birthdayRule now employees ++
    anniversaryRule now employees ++ probationRule now employees ++
    leaveRule now leaveData

/-- `generateCriticalAlerts(employees, leaveData)` with the reference instant
`today` (line 478) made explicit. -/
def generateCriticalAlerts (now : Int) (employees : List Employee)
    (leaveData : List LeaveRequest) : List Alert :=
  stableSortByPriority (collectAlerts now employees leaveData)

/-! ### Clock-read-faithful model

`generateCriticalAlerts` captures `today` once (line 478), but the helpers
`getBirthdayThisYear` (line 105), `isToday` (line 94), `getAnniversaryThisYear`
(line 116) and `calculateYearsOfService` (line 127) each call `getWIBDate()`
again.  This model threads the sequence of wall-clock reads explicitly:
`clock n` is the value returned by the (n+1)-th `getWIBDate()` call. -/

/-- Birthday rule over already-filtered employees: two clock reads per record
(`getBirthdayThisYear`, then `isToday`), consumed whether or not the birth
date parses. -/
def birthdayRuleClocked (clock : Nat → Int) : Nat → List Employee → List Alert
  | _, [] => []
  | k, e :: es =>
    (if isToday (clock (k + 1)) (getBirthdayThisYear (clock k) (e.birth_date.bind id)) then
      [mkBirthdayAlert e]
    else []) ++ birthdayRuleClocked clock (k + 2) es

/-- Anniversary rule over already-filtered employees: one clock read per
record (`getAnniversaryThisYear`), plus one more (`calculateYearsOfService`)
only when the alert fires; `today` is the instant captured at line 478 and is
what `daysDifference` compares against. -/
def anniversaryRuleClocked (clock : Nat → Int) (today : Int) :
    Nat → List Employee → List Alert
  | k, [] => (fun _ => []) k
  | k, e :: es =>
    match e.join_date.bind id with
    | none => anniversaryRuleClocked clock today (k + 1) es
    | some j =>
      let d := daysDifference today (mkDateYMD (getFullYear (clock k)) (getMonth j) (getDate j))
      if 0 ≤ d ∧ d ≤ 7 then
        mkAnniversaryAlert e (calculateYearsOfService (clock (k + 1)) j) ::
          anniversaryRuleClocked clock today (k + 2) es
      else anniversaryRuleClocked clock today (k + 1) es

/-- `generateCriticalAlerts` with every wall-clock read explicit.  The
contract, probation and pending-leave rules use only the captured `today`;
the birthday and anniversary rules also consume later reads. -/
def generateCriticalAlertsClocked (clock : Nat → Int) (employees : List Employee)
    (leaveData : List LeaveRequest) : List Alert :=
  let today := clock 0
  let birthdayEmps := employees.filter (fun e => e.is_active && e.birth_date.isSome)
  stableSortByPriority
    (contractRule today employees ++
      birthdayRuleClocked clock 1 birthdayEmps ++
      anniversaryRuleClocked clock today (1 + 2 * birthdayEmps.length)
        (employees.filter (fun e => e.is_active && e.join_date.isSome)) ++
      probationRule today employees ++
      leaveRule today leaveData)

/-! ### Statistics calculators (dashboard.js lines 267-303 and 440-464) -/

/-- Result record of `calculateEmployeeStats`. -/
structure EmployeeStats where
  totalEmployees : Nat
  totalMale : Nat
  totalFemale : Nat
  activeEmployees : Nat
  activeMale : Nat
  activeFemale : Nat
  inactiveEmployees : Nat
  inactiveMale : Nat
  inactiveFemale : Nat
  deriving DecidableEq, Repr

def initialStats : EmployeeStats :=
  { totalEmployees := 0, totalMale := 0, totalFemale := 0
    activeEmployees := 0, activeMale := 0, activeFemale := 0
    inactiveEmployees := 0, inactiveMale := 0, inactiveFemale := 0 }

/-- One iteration of the `employees.forEach` of lines 280-300. -/
def statsStep (stats : EmployeeStats) (emp : Employee) : EmployeeStats :=
  let s1 :=
    { stats with
      totalEmployees := stats.totalEmployees + 1
      totalMale := stats.totalMale + (if emp.gender = "Male" then 1 else 0)
      totalFemale := stats.totalFemale + (if emp.gender = "Female" then 1 else 0) }
  let s2 :=
    if emp.is_active && !emp.is_resigned then
      { s1 with
        activeEmployees := s1.activeEmployees + 1
        activeMale := s1.activeMale + (if emp.gender = "Male" then 1 else 0)
        activeFemale := s1.activeFemale + (if emp.gender = "Female" then 1 else 0) }
    else s1
  if !emp.is_active then
    { s2 with
      inactiveEmployees := s2.inactiveEmployees + 1
      inactiveMale := s2.inactiveMale + (if emp.gender = "Male" then 1 else 0)
      inactiveFemale := s2.inactiveFemale + (if emp.gender = "Female" then 1 else 0) }
  else s2

/-- `calculateEmployeeStats(employees)` (lines 267-303). -/
def calculateEmployeeStats (employees : List Employee) : EmployeeStats :=
  employees.foldl statsStep initialStats

/-- JS `(x).toFixed(1)` result vs the number `0`: the turnover rate is a
string when the list is non-empty and the number 0 otherwise. -/
inductive RateValue where
  | num (n : Nat)
  | str (s : String)
  deriving DecidableEq, Repr

/-- Round-half-up of the rational `a / b` (`b > 0`), as used by `toFixed`. -/
def roundHalfUp (a b : Nat) : Nat := (2 * a + b) / (2 * b)

/-- `((resigned / total) * 100).toFixed(1)`: the percentage in tenths, printed
with one decimal.  (This models the exact-rational rounding; the double
rounding of JS agrees on all inputs the claims touch.) -/
def toFixed1Percent (resigned total : Nat) : String :=
  let tenths := roundHalfUp (resigned * 1000) total
  toString (tenths / 10) ++ "." ++ toString (tenths % 10)

/-- Result record of `calculateTurnoverData`. -/
structure TurnoverData where
  active : Nat
  resigned : Nat
  inactive : Nat
  total : Nat
  turnoverRate : RateValue
  deriving DecidableEq, Repr

/-- One iteration of the `employees.forEach` of lines 445-453; the triple is
(active, resigned, inactive). -/
def turnoverStep (acc : Nat × Nat × Nat) (emp : Employee) : Nat × Nat × Nat :=
  if emp.is_resigned then (acc.1, acc.2.1 + 1, acc.2.2)
  else if emp.is_active then (acc.1 + 1, acc.2.1, acc.2.2)
  else (acc.1, acc.2.1, acc.2.2 + 1)

/-- `calculateTurnoverData(employees)` (lines 440-464). -/
def calculateTurnoverData (employees : List Employee) : TurnoverData :=
  let counts := employees.foldl turnoverStep (0, 0, 0)
  { active := counts.1
    resigned := counts.2.1
    inactive := counts.2.2
    total := employees.length
    turnoverRate :=
      if 0 < employees.length then
        RateValue.str (toFixed1Percent counts.2.1 employees.length)
      else RateValue.num 0 }

example : toFixed1Percent 3 10 = "30.0" := by decide
example : toFixed1Percent 1 3 = "33.3" := by decide

/-! ### Generic lemmas about the filter-then-emit rule shape -/

theorem pipeline_append {α β : Type} (p : α → Bool) (f : α → Option β) (l1 l2 : List α) :
    ((l1 ++ l2).filter p).filterMap f =
      (l1.filter p).filterMap f ++ (l2.filter p).filterMap f := by
  simp [List.filter_append, List.filterMap_append]

theorem pipeline_cons {α β : Type} (p : α → Bool) (f : α → Option β) (e : α) (es : List α) :
    ((e :: es).filter p).filterMap f =
      (([e].filter p).filterMap f) ++ ((es.filter p).filterMap f) := by
  by_cases h : p e
  · cases hf : f e <;> simp [List.filter_cons, h, List.filterMap_cons, hf]
  · simp [List.filter_cons, h]

theorem pipeline_singleton {α β : Type} (p : α → Bool) (f : α → Option β) (e : α) :
    (([e].filter p).filterMap f) = if p e then (f e).toList else [] := by
  by_cases h : p e <;> cases hf : f e <;> simp [List.filter_cons, h, hf]

/-! ### Lemmas about the stable priority sort -/

theorem alertLE_total (a b : Alert) : alertLE a b ∨ alertLE b a := by
  unfold alertLE
  omega

theorem alertLE_trans (a b c : Alert) : alertLE a b → alertLE b c → alertLE a c := by
  unfold alertLE
  omega

theorem stableSort_perm (l : List Alert) : List.Perm (stableSortByPriority l) l :=
  List.perm_insertionSort alertLE l

theorem stableSort_sorted (l : List Alert) :
    (stableSortByPriority l).Pairwise alertLE := by
  haveI : IsTotal Alert alertLE := ⟨alertLE_total⟩
  haveI : IsTrans Alert alertLE := ⟨alertLE_trans⟩
  exact List.sorted_insertionSort alertLE l

theorem filter_orderedInsert (n : Nat) (a : Alert) (l : List Alert) :
    (List.orderedInsert alertLE a l).filter (fun x => priorityOrder x.priority == n) =
      if priorityOrder a.priority == n then
        a :: l.filter (fun x => priorityOrder x.priority == n)
      else l.filter (fun x => priorityOrder x.priority == n) := by
  induction l with
  | nil =>
    by_cases ha : priorityOrder a.priority = n <;>
      simp [List.orderedInsert, List.filter_cons, ha]
  | cons b bs ih =>
    by_cases hab : alertLE a b
    · simp only [List.orderedInsert, if_pos hab]
      by_cases ha : priorityOrder a.priority = n <;>
        simp [List.filter_cons, ha]
    · simp only [List.orderedInsert, if_neg hab]
      have hlt : priorityOrder b.priority < priorityOrder a.priority := by
        unfold alertLE at hab
        omega
      by_cases ha : priorityOrder a.priority = n
      · have hb : ¬(priorityOrder b.priority = n) := by omega
        simp [List.filter_cons, ha, hb, ih]
      · by_cases hb : priorityOrder b.priority = n <;>
          simp [List.filter_cons, ha, hb, ih]

theorem filter_stableSort (n : Nat) (l : List Alert) :
    (stableSortByPriority l).filter (fun x => priorityOrder x.priority == n) =
      l.filter (fun x => priorityOrder x.priority == n) := by
  induction l with
  | nil => rfl
  | cons a as ih =>
    show (List.orderedInsert alertLE a (stableSortByPriority as)).filter _ = _
    rw [filter_orderedInsert]
    by_cases ha : priorityOrder a.priority = n <;> simp [List.filter_cons, ha, ih]

/-! ### Each rule only emits alerts of its own type -/

theorem contractAlertFor_type (now : Int) (e : Employee) (a : Alert)
    (h : contractAlertFor now e = some a) : a.type = "contract" := by
  rcases hc : e.current_contract_end with _ | (_ | t) <;>
    simp only [contractAlertFor, hc] at h
  · exact Option.noConfusion h
  · exact Option.noConfusion h
  split at h
  · simp only [Option.some.injEq] at h
    subst h
    rfl
  · simp at h

theorem birthdayAlertFor_type (now : Int) (e : Employee) (a : Alert)
    (h : birthdayAlertFor now e = some a) : a.type = "birthday" := by
  unfold birthdayAlertFor at h
  split at h
  · simp only [Option.some.injEq] at h
    subst h
    rfl
  · simp at h

theorem anniversaryAlertFor_type (now : Int) (e : Employee) (a : Alert)
    (h : anniversaryAlertFor now e = some a) : a.type = "anniversary" := by
  rcases hj : e.join_date.bind id with _ | j <;>
    simp only [anniversaryAlertFor, hj] at h
  · exact Option.noConfusion h
  split at h
  · simp only [Option.some.injEq] at h
    subst h
    rfl
  · simp at h

theorem probationAlertFor_type (now : Int) (e : Employee) (a : Alert)
    (h : probationAlertFor now e = some a) : a.type = "probation" := by
  rcases hj : e.join_date.bind id with _ | j <;>
    simp only [probationAlertFor, hj] at h
  · exact Option.noConfusion h
  split at h
  · simp only [Option.some.injEq] at h
    subst h
    rfl
  · simp at h

theorem leaveAlertFor_type (now : Int) (l : LeaveRequest) (a : Alert)
    (h : leaveAlertFor now l = some a) : a.type = "leave_pending" := by
  rcases hr : requestParse l with _ | r <;> simp only [leaveAlertFor, hr] at h
  · exact Option.noConfusion h
  split at h
  · simp only [Option.some.injEq] at h
    subst h
    rfl
  · simp at h

theorem contractRule_types (now : Int) (emps : List Employee) :
    ∀ a ∈ contractRule now emps, a.type = "contract" := by
  intro a ha
  unfold contractRule at ha
  rw [List.mem_filterMap] at ha
  obtain ⟨e, _, hfa⟩ := ha
  exact contractAlertFor_type now e a hfa

theorem birthdayRule_types (now : Int) (emps : List Employee) :
    ∀ a ∈ birthdayRule now emps, a.type = "birthday" := by
  intro a ha
  unfold birthdayRule at ha
  rw [List.mem_filterMap] at ha
  obtain ⟨e, _, hfa⟩ := ha
  exact birthdayAlertFor_type now e a hfa

theorem anniversaryRule_types (now : Int) (emps : List Employee) :
    ∀ a ∈ anniversaryRule now emps, a.type = "anniversary" := by
  intro a ha
  unfold anniversaryRule at ha
  rw [List.mem_filterMap] at ha
  obtain ⟨e, _, hfa⟩ := ha
  exact anniversaryAlertFor_type now e a hfa

theorem probationRule_types (now : Int) (emps : List Employee) :
    ∀ a ∈ probationRule now emps, a.type = "probation" := by
  intro a ha
  unfold probationRule at ha
  rw [List.mem_filterMap] at ha
  obtain ⟨e, _, hfa⟩ := ha
  exact probationAlertFor_type now e a hfa

theorem leaveRule_types (now : Int) (leaves : List LeaveRequest) :
    ∀ a ∈ leaveRule now leaves, a.type = "leave_pending" := by
  intro a ha
  unfold leaveRule at ha
  rw [List.mem_filterMap] at ha
  obtain ⟨l, _, hfa⟩ := ha
  exact leaveAlertFor_type now l a hfa

/-! ### Counting alerts of a given type in the engine output -/

theorem countP_type_eq_length {l : List Alert} {T : String}
    (h : ∀ a ∈ l, a.type = T) :
    l.countP (fun a => a.type == T) = l.length := by
  rw [List.countP_eq_length]
  intro a ha
  simp [h a ha]

theorem countP_type_eq_zero {l : List Alert} {T T2 : String}
    (h : ∀ a ∈ l, a.type = T) (hne : T ≠ T2) :
    l.countP (fun a => a.type == T2) = 0 := by
  rw [List.countP_eq_zero]
  intro a ha
  simp [h a ha, hne]

theorem countP_generateCriticalAlerts (now : Int) (emps : List Employee)
    (leaves : List LeaveRequest) (q : Alert → Bool) :
    (generateCriticalAlerts now emps leaves).countP q =
      (contractRule now emps).countP q + (birthdayRule now emps).countP q +
        (anniversaryRule now emps).countP q + (probationRule now emps).countP q +
        (leaveRule now leaves).countP q := by
  unfold generateCriticalAlerts collectAlerts
  rw [List.Perm.countP_eq q (stableSort_perm _)]
  simp only [List.countP_append]

/-! ### Fold characterizations of the statistics calculators -/

theorem turnover_foldl (l : List Employee) (a r i : Nat) :
    l.foldl turnoverStep (a, r, i) =
      (a + l.countP (fun e => !e.is_resigned && e.is_active),
        r + l.countP (fun e => e.is_resigned),
        i + l.countP (fun e => !e.is_resigned && !e.is_active)) := by
  induction l generalizing a r i with
  | nil => simp
  | cons e es ih =>
    simp only [List.foldl_cons]
    by_cases hr : e.is_resigned = true <;> by_cases ha : e.is_active = true <;>
      simp [turnoverStep, hr, ha, ih, List.countP_cons, Prod.ext_iff] <;> omega

theorem turnover_partition (l : List Employee) :
    l.countP (fun e => e.is_resigned) + l.countP (fun e => !e.is_resigned && e.is_active) +
      l.countP (fun e => !e.is_resigned && !e.is_active) = l.length := by
  induction l with
  | nil => rfl
  | cons e es ih =>
    by_cases hr : e.is_resigned = true <;> by_cases ha : e.is_active = true <;>
      simp [List.countP_cons, hr, ha] <;> omega

theorem stats_foldl (l : List Employee) (s : EmployeeStats) :
    (l.foldl statsStep s).totalEmployees = s.totalEmployees + l.length ∧
      (l.foldl statsStep s).activeEmployees =
        s.activeEmployees + l.countP (fun e => e.is_active && !e.is_resigned) ∧
      (l.foldl statsStep s).inactiveEmployees =
        s.inactiveEmployees + l.countP (fun e => !e.is_active) := by
  induction l generalizing s with
  | nil => simp
  | cons e es ih =>
    simp only [List.foldl_cons, List.countP_cons, List.length_cons]
    obtain ⟨ih1, ih2, ih3⟩ := ih (statsStep s e)
    rw [ih1, ih2, ih3]
    by_cases hr : e.is_resigned = true <;> by_cases ha : e.is_active = true <;>
      simp [statsStep, hr, ha] <;> omega

theorem stats_partition (l : List Employee) :
    l.countP (fun e => e.is_active && !e.is_resigned) + l.countP (fun e => !e.is_active) +
      l.countP (fun e => e.is_active && e.is_resigned) = l.length := by
  induction l with
  | nil => rfl
  | cons e es ih =>
    by_cases hr : e.is_resigned = true <;> by_cases ha : e.is_active = true <;>
      simp [List.countP_cons, hr, ha] <;> omega

/-! ### Demo records used in concrete instantiations -/

/-- An employee with only the activity flags set. -/
def sampleEmp (name : String) (act res : Bool) : Employee :=
  { full_name := name, gender := "Male", is_active := act, is_resigned := res,
    employment_status := "Permanent", birth_date := none, join_date := none,
    current_contract_end := none }

/-- Ten employees: 3 resigned (one of them still flagged active), 5 active and
not resigned, 2 neither. -/
def turnoverDemo : List Employee :=
  [sampleEmp "r1" true true, sampleEmp "r2" false true, sampleEmp "r3" false true,
    sampleEmp "a1" true false, sampleEmp "a2" true false, sampleEmp "a3" true false,
    sampleEmp "a4" true false, sampleEmp "a5" true false,
    sampleEmp "n1" false false, sampleEmp "n2" false false]

/-- Claim C3: `normalizeLeaveStatus` lower-cases and trims its input, returns
"Approved" exactly when the result contains "approved" or "disetujui",
otherwise "Declined" exactly when it contains "declined", "rejected" or
"ditolak", and "Pending" for every other input, including null and the empty
string; in particular "Disetujui", " APPROVED " and "approved by manager"
normalize to Approved while "", null and "awaiting review" normalize to
Pending. -/
theorem claim_C3_normalize_status :
    (∀ raw : String,
      (normalizeLeaveStatus (some raw) = "Approved" ↔
        (hasSubstr (jsLowerTrim raw) "approved" ||
          hasSubstr (jsLowerTrim raw) "disetujui") = true) ∧
      (normalizeLeaveStatus (some raw) = "Declined" ↔
        ((hasSubstr (jsLowerTrim raw) "approved" ||
            hasSubstr (jsLowerTrim raw) "disetujui") = false ∧
          (hasSubstr (jsLowerTrim raw) "declined" || hasSubstr (jsLowerTrim raw) "rejected" ||
            hasSubstr (jsLowerTrim raw) "ditolak") = true)) ∧
      (normalizeLeaveStatus (some raw) = "Pending" ↔
        ((hasSubstr (jsLowerTrim raw) "approved" ||
            hasSubstr (jsLowerTrim raw) "disetujui") = false ∧
          (hasSubstr (jsLowerTrim raw) "declined" || hasSubstr (jsLowerTrim raw) "rejected" ||
            hasSubstr (jsLowerTrim raw) "ditolak") = false))) ∧
    normalizeLeaveStatus none = "Pending" ∧
    normalizeLeaveStatus (some "Disetujui") = "Approved" ∧
    normalizeLeaveStatus (some " APPROVED ") = "Approved" ∧
    normalizeLeaveStatus (some "approved by manager") = "Approved" ∧
    normalizeLeaveStatus (some "") = "Pending" ∧
    normalizeLeaveStatus (some "awaiting review") = "Pending" := by
  refine ⟨?_, by decide, by decide, by decide, by decide, by decide, by decide⟩
  intro raw
  have hAD : ("Approved" : String) ≠ "Declined" := by decide
  have hAP : ("Approved" : String) ≠ "Pending" := by decide
  have hDP : ("Declined" : String) ≠ "Pending" := by decide
  by_cases h0 : raw = ""
  · subst h0
    decide
  · simp only [normalizeLeaveStatus, if_neg h0]
    by_cases hA : (hasSubstr (jsLowerTrim raw) "approved" ||
        hasSubstr (jsLowerTrim raw) "disetujui") = true
    · rw [if_pos hA]
      exact ⟨⟨fun _ => hA, fun _ => rfl⟩,
        iff_of_false hAD (by simp [hA]),
        iff_of_false hAP (by simp [hA])⟩
    · simp only [Bool.not_eq_true] at hA
      rw [if_neg (by simp [hA])]
      by_cases hD : (hasSubstr (jsLowerTrim raw) "declined" ||
          hasSubstr (jsLowerTrim raw) "rejected" ||
          hasSubstr (jsLowerTrim raw) "ditolak") = true
      · rw [if_pos hD]
        exact ⟨iff_of_false (Ne.symm hAD) (by simp [hA]),
          ⟨fun _ => ⟨hA, hD⟩, fun _ => rfl⟩,
          iff_of_false hDP (by simp [hD])⟩
      · simp only [Bool.not_eq_true] at hD
        rw [if_neg (by simp [hD])]
        exact ⟨iff_of_false (Ne.symm hAP) (by simp [hA]),
          iff_of_false (Ne.symm hDP) (by simp [hD]),
          ⟨fun _ => ⟨hA, hD⟩, fun _ => rfl⟩⟩

/-- Claim C7: `calculateTurnoverData` assigns every employee to exactly one of
resigned/active/inactive with the resigned check taking precedence over the
active check, so resigned + active + inactive = total = input length; the rate
is the resigned percentage with one decimal, and the number 0 for an empty
list; the 3/5/2 example of the spec yields exactly
`{resigned: 3, active: 5, inactive: 2, total: 10, turnoverRate: "30.0"}`. -/
theorem claim_C7_turnover (emps : List Employee) :
    (calculateTurnoverData emps).resigned = emps.countP (fun e => e.is_resigned) ∧
    (calculateTurnoverData emps).active =
      emps.countP (fun e => !e.is_resigned && e.is_active) ∧
    (calculateTurnoverData emps).inactive =
      emps.countP (fun e => !e.is_resigned && !e.is_active) ∧
    (calculateTurnoverData emps).resigned + (calculateTurnoverData emps).active +
      (calculateTurnoverData emps).inactive = (calculateTurnoverData emps).total ∧
    (calculateTurnoverData emps).total = emps.length ∧
    (emps.length = 0 → (calculateTurnoverData emps).turnoverRate = RateValue.num 0) ∧
    (0 < emps.length →
      (calculateTurnoverData emps).turnoverRate =
        RateValue.str (toFixed1Percent (emps.countP (fun e => e.is_resigned)) emps.length)) ∧
    calculateTurnoverData turnoverDemo =
      { active := 5, resigned := 3, inactive := 2, total := 10,
        turnoverRate := RateValue.str "30.0" } := by
  have hpart := turnover_partition emps
  have hf := turnover_foldl emps 0 0 0
  refine ⟨?_, ?_, ?_, ?_, ?_, ?_, ?_, by decide⟩
  · simp only [calculateTurnoverData, hf]
    simp
  · simp only [calculateTurnoverData, hf]
    simp
  · simp only [calculateTurnoverData, hf]
    simp
  · simp only [calculateTurnoverData, hf]
    simp
    omega
  · simp [calculateTurnoverData]
  · intro h
    simp [calculateTurnoverData, h]
  · intro h
    simp only [calculateTurnoverData, hf]
    simp [h]

/-- Claim C10: in `calculateEmployeeStats`, `activeEmployees` counts employees
with `is_active` and not `is_resigned`, `inactiveEmployees` counts employees
with `is_active` false, so an employee with both flags true is counted in
`totalEmployees` but in neither bucket; hence active + inactive <= total with
strict inequality exactly when such an employee exists, while
`calculateTurnoverData` counts that same employee as resigned. -/
theorem claim_C10_stats_partition (emps : List Employee) :
    (calculateEmployeeStats emps).activeEmployees =
      emps.countP (fun e => e.is_active && !e.is_resigned) ∧
    (calculateEmployeeStats emps).inactiveEmployees =
      emps.countP (fun e => !e.is_active) ∧
    (calculateEmployeeStats emps).totalEmployees = emps.length ∧
    (calculateEmployeeStats emps).activeEmployees +
      (calculateEmployeeStats emps).inactiveEmployees ≤
      (calculateEmployeeStats emps).totalEmployees ∧
    ((calculateEmployeeStats emps).activeEmployees +
        (calculateEmployeeStats emps).inactiveEmployees <
        (calculateEmployeeStats emps).totalEmployees ↔
      ∃ e ∈ emps, e.is_active = true ∧ e.is_resigned = true) ∧
    (∀ e : Employee, e.is_active = true → e.is_resigned = true →
      (calculateEmployeeStats [e]).totalEmployees = 1 ∧
      (calculateEmployeeStats [e]).activeEmployees = 0 ∧
      (calculateEmployeeStats [e]).inactiveEmployees = 0 ∧
      (calculateTurnoverData [e]).resigned = 1) := by
  obtain ⟨h1, h2, h3⟩ := stats_foldl emps initialStats
  have e1 : (calculateEmployeeStats emps).totalEmployees = emps.length := by
    simpa [calculateEmployeeStats, initialStats] using h1
  have e2 : (calculateEmployeeStats emps).activeEmployees =
      emps.countP (fun e => e.is_active && !e.is_resigned) := by
    simpa [calculateEmployeeStats, initialStats] using h2
  have e3 : (calculateEmployeeStats emps).inactiveEmployees =
      emps.countP (fun e => !e.is_active) := by
    simpa [calculateEmployeeStats, initialStats] using h3
  have hpart := stats_partition emps
  refine ⟨e2, e3, e1, ?_, ?_, ?_⟩
  · omega
  · rw [e1, e2, e3]
    constructor
    · intro hlt
      have hpos : 0 < emps.countP (fun e => e.is_active && e.is_resigned) := by omega
      obtain ⟨e, he, hp⟩ := List.countP_pos_iff.mp hpos
      refine ⟨e, he, ?_, ?_⟩ <;> simp only [Bool.and_eq_true] at hp
      · exact hp.1
      · exact hp.2
    · rintro ⟨e, he, ha, hr⟩
      have hpos : 0 < emps.countP (fun e => e.is_active && e.is_resigned) :=
        List.countP_pos_iff.mpr ⟨e, he, by simp [ha, hr]⟩
      omega
  · intro e ha hr
    refine ⟨?_, ?_, ?_, ?_⟩ <;>
      simp [calculateEmployeeStats, statsStep, initialStats,
        calculateTurnoverData, turnoverStep, ha, hr]

/-- Witness for C10 at a concrete active-and-resigned employee. -/
theorem claim_C10_witness :
    (calculateEmployeeStats [sampleEmp "x" true true]).totalEmployees = 1 ∧
    (calculateEmployeeStats [sampleEmp "x" true true]).activeEmployees = 0 ∧
    (calculateEmployeeStats [sampleEmp "x" true true]).inactiveEmployees = 0 ∧
    (calculateTurnoverData [sampleEmp "x" true true]).resigned = 1 :=
  (claim_C10_stats_partition []).2.2.2.2.2 (sampleEmp "x" true true) rfl rfl

/-- Witness for C7's conditional clauses at concrete lists. -/
theorem claim_C7_witness :
    (calculateTurnoverData ([] : List Employee)).turnoverRate = RateValue.num 0 ∧
    (calculateTurnoverData turnoverDemo).turnoverRate =
      RateValue.str (toFixed1Percent (turnoverDemo.countP (fun e => e.is_resigned))
        turnoverDemo.length) :=
  ⟨(claim_C7_turnover []).2.2.2.2.2.1 rfl,
    (claim_C7_turnover turnoverDemo).2.2.2.2.2.2.1 (by decide)⟩

/-- Claim C1: for every active employee with a present, parseable contract-end
date, the contract rule of `generateCriticalAlerts` computes
`daysUntilExpiry = ceil((contractEnd - now) / 1 day)` and emits exactly one
"contract" alert iff `0 <= daysUntilExpiry <= 30`, with priority high iff
`<= 7`, medium iff `8..14`, low otherwise; at exactly 30 days the priority is
low, at exactly 7 days high, and nothing is emitted for a negative
difference.  Employees contribute independently and per-employee, and no
other rule contributes alerts of type "contract". -/
theorem claim_C1_contract_alerts (now : Int) (e : Employee) (t d : Int)
    (hact : e.is_active = true)
    (hend : e.current_contract_end = some (some t))
    (hd : d = daysDifference now t) :
    ((contractRule now [e]).length = 1 ↔ (0 ≤ d ∧ d ≤ 30)) ∧
    (¬(0 ≤ d ∧ d ≤ 30) → contractRule now [e] = []) ∧
    (∀ a ∈ contractRule now [e],
      a.type = "contract" ∧ a.daysRemaining = some d ∧ a.employee = some e ∧
        a.priority = (if d ≤ 7 then "high" else if d ≤ 14 then "medium" else "low")) ∧
    (d < 0 → contractRule now [e] = []) ∧
    (d = 30 → ∃ a, contractRule now [e] = [a] ∧ a.priority = "low") ∧
    (d = 7 → ∃ a, contractRule now [e] = [a] ∧ a.priority = "high") ∧
    (∀ es : List Employee,
      contractRule now (e :: es) = contractRule now [e] ++ contractRule now es) ∧
    (∀ leaves : List LeaveRequest,
      (generateCriticalAlerts now [e] leaves).countP (fun a => a.type == "contract") =
        if 0 ≤ d ∧ d ≤ 30 then 1 else 0) := by
  subst hd
  have hp : (e.is_active && e.current_contract_end.isSome) = true := by
    simp [hact, hend]
  have h1 : contractRule now [e] = (contractAlertFor now e).toList := by
    unfold contractRule
    rw [pipeline_singleton, if_pos hp]
  have h2 : contractAlertFor now e =
      if 0 ≤ daysDifference now t ∧ daysDifference now t ≤ 30 then
        some (mkContractAlert e (daysDifference now t))
      else none := by
    simp only [contractAlertFor, hend]
  have hcount : ∀ leaves : List LeaveRequest,
      (generateCriticalAlerts now [e] leaves).countP (fun a => a.type == "contract") =
        (contractRule now [e]).length := by
    intro leaves
    rw [countP_generateCriticalAlerts]
    rw [countP_type_eq_length (contractRule_types now [e]),
      countP_type_eq_zero (birthdayRule_types now [e]) (by decide),
      countP_type_eq_zero (anniversaryRule_types now [e]) (by decide),
      countP_type_eq_zero (probationRule_types now [e]) (by decide),
      countP_type_eq_zero (leaveRule_types now leaves) (by decide)]
    omega
  by_cases hc : 0 ≤ daysDifference now t ∧ daysDifference now t ≤ 30
  · rw [if_pos hc] at h2
    rw [h2] at h1
    refine ⟨by simp [h1, hc], by intro hn; exact absurd hc hn, ?_, ?_, ?_, ?_, ?_, ?_⟩
    · intro a ha
      rw [h1] at ha
      simp only [Option.toList_some, List.mem_singleton] at ha
      subst ha
      exact ⟨rfl, rfl, rfl, rfl⟩
    · intro hneg
      omega
    · intro h30
      exact ⟨mkContractAlert e (daysDifference now t), by simp [h1],
        by simp [mkContractAlert, h30]⟩
    · intro h7
      exact ⟨mkContractAlert e (daysDifference now t), by simp [h1],
        by simp [mkContractAlert, h7]⟩
    · intro es
      unfold contractRule
      exact pipeline_cons _ _ e es
    · intro leaves
      rw [hcount leaves, if_pos hc, h1]
      simp
  · rw [if_neg hc] at h2
    rw [h2] at h1
    simp only [Option.toList_none] at h1
    refine ⟨by simp [h1, hc], fun _ => h1, ?_, fun _ => h1, ?_, ?_, ?_, ?_⟩
    · intro a ha
      rw [h1] at ha
      exact absurd ha (List.not_mem_nil a)
    · intro h30
      exact absurd (by omega : 0 ≤ daysDifference now t ∧ daysDifference now t ≤ 30) hc
    · intro h7
      exact absurd (by omega : 0 ≤ daysDifference now t ∧ daysDifference now t ≤ 30) hc
    · intro es
      unfold contractRule
      exact pipeline_cons _ _ e es
    · intro leaves
      rw [hcount leaves, if_neg hc, h1]
      rfl

/-- Active employee whose contract ends 10 days after the epoch. -/
def contractDemoEmp : Employee :=
  { full_name := "w", gender := "Male", is_active := true, is_resigned := false,
    employment_status := "Permanent", birth_date := none, join_date := none,
    current_contract_end := some (some (10 * msPerDay)) }

/-- Witness for C1: `now` at the epoch, contract ending 10 days later. -/
theorem claim_C1_witness : (contractRule 0 [contractDemoEmp]).length = 1 :=
  ((claim_C1_contract_alerts 0 contractDemoEmp (10 * msPerDay) 10 rfl rfl
    (by decide)).1).mpr (by decide)

/-- Claim C2: for every leave request whose normalized status is Pending and
whose timestamp parses, the pending-leave rule computes
`daysPending = ceil((now - requestTimestamp) / 1 day)` and emits exactly one
"leave_pending" alert iff `daysPending > 2` (strict), with priority high iff
`> 5` and medium otherwise; at exactly 2 days nothing is emitted, at 3 days
the priority is medium, at 6 days high.  Requests contribute independently,
and no other rule contributes alerts of type "leave_pending". -/
theorem claim_C2_leave_pending_alerts (now : Int) (l : LeaveRequest) (r d : Int)
    (hst : normalizeLeaveStatus l.status = "Pending")
    (hts : l.timestamp = some (some r))
    (hd : d = daysDifference r now) :
    ((leaveRule now [l]).length = 1 ↔ 2 < d) ∧
    (¬(2 < d) → leaveRule now [l] = []) ∧
    (∀ a ∈ leaveRule now [l],
      a.type = "leave_pending" ∧ a.daysPending = some d ∧ a.leave = some l ∧
        a.priority = (if 5 < d then "high" else "medium")) ∧
    (d = 2 → leaveRule now [l] = []) ∧
    (d = 3 → ∃ a, leaveRule now [l] = [a] ∧ a.priority = "medium") ∧
    (d = 6 → ∃ a, leaveRule now [l] = [a] ∧ a.priority = "high") ∧
    (∀ ls : List LeaveRequest,
      leaveRule now (l :: ls) = leaveRule now [l] ++ leaveRule now ls) ∧
    (∀ emps : List Employee,
      (generateCriticalAlerts now emps [l]).countP (fun a => a.type == "leave_pending") =
        if 2 < d then 1 else 0) := by
  subst hd
  have hp : (decide (normalizeLeaveStatus l.status = "Pending")) = true := by
    simp [hst]
  have hreq : requestParse l = some r := by
    simp [requestParse, hts]
  have h1 : leaveRule now [l] = (leaveAlertFor now l).toList := by
    unfold leaveRule
    rw [pipeline_singleton, if_pos hp]
  have h2 : leaveAlertFor now l =
      if 2 < daysDifference r now then some (mkLeaveAlert l (daysDifference r now))
      else none := by
    simp only [leaveAlertFor, hreq]
  have hcount : ∀ emps : List Employee,
      (generateCriticalAlerts now emps [l]).countP (fun a => a.type == "leave_pending") =
        (leaveRule now [l]).length := by
    intro emps
    rw [countP_generateCriticalAlerts]
    rw [countP_type_eq_length (leaveRule_types now [l]),
      countP_type_eq_zero (birthdayRule_types now emps) (by decide),
      countP_type_eq_zero (anniversaryRule_types now emps) (by decide),
      countP_type_eq_zero (probationRule_types now emps) (by decide),
      countP_type_eq_zero (contractRule_types now emps) (by decide)]
    omega
  by_cases hc : 2 < daysDifference r now
  · rw [if_pos hc] at h2
    rw [h2] at h1
    refine ⟨by simp [h1, hc], fun hn => absurd hc hn, ?_, ?_, ?_, ?_, ?_, ?_⟩
    · intro a ha
      rw [h1] at ha
      simp only [Option.toList_some, List.mem_singleton] at ha
      subst ha
      exact ⟨rfl, rfl, rfl, rfl⟩
    · intro h2d
      omega
    · intro h3
      exact ⟨mkLeaveAlert l (daysDifference r now), by simp [h1],
        by simp [mkLeaveAlert, h3]⟩
    · intro h6
      exact ⟨mkLeaveAlert l (daysDifference r now), by simp [h1],
        by simp [mkLeaveAlert, h6]⟩
    · intro ls
      unfold leaveRule
      exact pipeline_cons _ _ l ls
    · intro emps
      rw [hcount emps, if_pos hc, h1]
      simp
  · rw [if_neg hc] at h2
    rw [h2] at h1
    simp only [Option.toList_none] at h1
    refine ⟨by simp [h1, hc], fun _ => h1, ?_, fun _ => h1, ?_, ?_, ?_, ?_⟩
    · intro a ha
      rw [h1] at ha
      exact absurd ha (List.not_mem_nil a)
    · intro h3
      exact absurd (by omega : 2 < daysDifference r now) hc
    · intro h6
      exact absurd (by omega : 2 < daysDifference r now) hc
    · intro ls
      unfold leaveRule
      exact pipeline_cons _ _ l ls
    · intro emps
      rw [hcount emps, if_neg hc, h1]
      rfl

/-- Pending leave request submitted at the epoch. -/
def leaveDemoReq : LeaveRequest :=
  { namaLengkap := "Dewi", status := some "Pending",
    timestamp := some (some 0), tanggalPermohonan := none }

/-- Witness for C2: request 3 days old. -/
theorem claim_C2_witness : (leaveRule (3 * msPerDay) [leaveDemoReq]).length = 1 :=
  ((claim_C2_leave_pending_alerts (3 * msPerDay) leaveDemoReq 0 3 (by decide) rfl
    (by decide)).1).mpr (by decide)

/-- Active employee on probation who joined 2025-01-01. -/
def probationDemoEmp : Employee :=
  { full_name := "p", gender := "Male", is_active := true, is_resigned := false,
    employment_status := "Probation", birth_date := none,
    join_date := some (some (mkDateYMD 2025 0 1)), current_contract_end := none }

/-- Claim C5: for every active employee whose employment status is exactly
"Probation" and whose join date parses, the probation rule computes the
probation end as the join date plus 3 calendar months (the JS `setMonth`
arithmetic) and emits exactly one "probation" alert, always with priority
high, iff the day difference to the probation end lies in [0, 7]; with
joinDate 2025-01-01 and now 2025-04-01 the alert fires with 0 days remaining,
and with now 2025-04-08 nothing is emitted. -/
theorem claim_C5_probation_alerts (now : Int) (e : Employee) (j d : Int)
    (hact : e.is_active = true)
    (hstat : e.employment_status = "Probation")
    (hjoin : e.join_date = some (some j))
    (hd : d = daysDifference now (setMonthPlus3 j)) :
    ((probationRule now [e]).length = 1 ↔ (0 ≤ d ∧ d ≤ 7)) ∧
    (¬(0 ≤ d ∧ d ≤ 7) → probationRule now [e] = []) ∧
    (∀ a ∈ probationRule now [e],
      a.type = "probation" ∧ a.priority = "high" ∧ a.daysRemaining = some d ∧
        a.employee = some e) ∧
    (∀ es : List Employee,
      probationRule now (e :: es) = probationRule now [e] ++ probationRule now es) ∧
    (∀ leaves : List LeaveRequest,
      (generateCriticalAlerts now [e] leaves).countP (fun a => a.type == "probation") =
        if 0 ≤ d ∧ d ≤ 7 then 1 else 0) ∧
    ((probationRule (mkDateYMD 2025 3 1) [probationDemoEmp]).map
        (fun a => (a.type, a.priority, a.daysRemaining)) =
      [("probation", "high", some 0)]) ∧
    probationRule (mkDateYMD 2025 3 8) [probationDemoEmp] = [] := by
  subst hd
  have hp : (e.is_active && decide (e.employment_status = "Probation")) = true := by
    simp [hact, hstat]
  have hjb : e.join_date.bind id = some j := by
    simp [hjoin]
  have h1 : probationRule now [e] = (probationAlertFor now e).toList := by
    unfold probationRule
    rw [pipeline_singleton, if_pos hp]
  have h2 : probationAlertFor now e =
      if 0 ≤ daysDifference now (setMonthPlus3 j) ∧
          daysDifference now (setMonthPlus3 j) ≤ 7 then
        some (mkProbationAlert e (setMonthPlus3 j) (daysDifference now (setMonthPlus3 j)))
      else none := by
    simp only [probationAlertFor, hjb, PROBATION_WARNING_DAYS]
  have hcount : ∀ leaves : List LeaveRequest,
      (generateCriticalAlerts now [e] leaves).countP (fun a => a.type == "probation") =
        (probationRule now [e]).length := by
    intro leaves
    rw [countP_generateCriticalAlerts]
    rw [countP_type_eq_length (probationRule_types now [e]),
      countP_type_eq_zero (birthdayRule_types now [e]) (by decide),
      countP_type_eq_zero (anniversaryRule_types now [e]) (by decide),
      countP_type_eq_zero (contractRule_types now [e]) (by decide),
      countP_type_eq_zero (leaveRule_types now leaves) (by decide)]
    omega
  by_cases hc : 0 ≤ daysDifference now (setMonthPlus3 j) ∧
      daysDifference now (setMonthPlus3 j) ≤ 7
  · rw [if_pos hc] at h2
    rw [h2] at h1
    refine ⟨by simp [h1, hc], fun hn => absurd hc hn, ?_, ?_, ?_, by decide, by decide⟩
    · intro a ha
      rw [h1] at ha
      simp only [Option.toList_some, List.mem_singleton] at ha
      subst ha
      exact ⟨rfl, rfl, rfl, rfl⟩
    · intro es
      unfold probationRule
      exact pipeline_cons _ _ e es
    · intro leaves
      rw [hcount leaves, if_pos hc, h1]
      simp
  · rw [if_neg hc] at h2
    rw [h2] at h1
    simp only [Option.toList_none] at h1
    refine ⟨by simp [h1, hc], fun _ => h1, ?_, ?_, ?_, by decide, by decide⟩
    · intro a ha
      rw [h1] at ha
      exact absurd ha (List.not_mem_nil a)
    · intro es
      unfold probationRule
      exact pipeline_cons _ _ e es
    · intro leaves
      rw [hcount leaves, if_neg hc, h1]
      rfl

/-- Witness for C5: now exactly at the 3-month mark. -/
theorem claim_C5_witness : (probationRule (mkDateYMD 2025 3 1) [probationDemoEmp]).length = 1 :=
  ((claim_C5_probation_alerts (mkDateYMD 2025 3 1) probationDemoEmp (mkDateYMD 2025 0 1) 0
    rfl rfl rfl (by decide)).1).mpr (by decide)

/-- Active employee who joined 2020-01-10. -/
def anniversaryDemoEmp : Employee :=
  { full_name := "q", gender := "Male", is_active := true, is_resigned := false,
    employment_status := "Permanent", birth_date := none,
    join_date := some (some (mkDateYMD 2020 0 10)), current_contract_end := none }

/-- Claim C6: for every active employee with a present, parseable join date,
the anniversary rule constructs this year's anniversary (same month/day as
the join date, current year) and emits exactly one "anniversary" alert,
always with priority low, iff the day difference lies in [0, 7] (at 8 days
nothing is emitted); the years count is plain year subtraction
`now.year - joinDate.year`, e.g. 5 for joinDate 2020-01-10 in 2025. -/
theorem claim_C6_anniversary_alerts (now : Int) (e : Employee) (j d : Int)
    (hact : e.is_active = true)
    (hjoin : e.join_date = some (some j))
    (hd : d = daysDifference now (mkDateYMD (getFullYear now) (getMonth j) (getDate j))) :
    ((anniversaryRule now [e]).length = 1 ↔ (0 ≤ d ∧ d ≤ 7)) ∧
    (¬(0 ≤ d ∧ d ≤ 7) → anniversaryRule now [e] = []) ∧
    (∀ a ∈ anniversaryRule now [e],
      a.type = "anniversary" ∧ a.priority = "low" ∧
        a.years = some (getFullYear now - getFullYear j) ∧ a.employee = some e) ∧
    (∀ es : List Employee,
      anniversaryRule now (e :: es) = anniversaryRule now [e] ++ anniversaryRule now es) ∧
    (∀ leaves : List LeaveRequest,
      (generateCriticalAlerts now [e] leaves).countP (fun a => a.type == "anniversary") =
        if 0 ≤ d ∧ d ≤ 7 then 1 else 0) ∧
    ((anniversaryRule (mkDateYMD 2025 0 3) [anniversaryDemoEmp]).map
        (fun a => (a.type, a.priority, a.years)) =
      [("anniversary", "low", some 5)]) ∧
    anniversaryRule (mkDateYMD 2025 0 2) [anniversaryDemoEmp] = [] := by
  subst hd
  have hp : (e.is_active && e.join_date.isSome) = true := by
    simp [hact, hjoin]
  have hjb : e.join_date.bind id = some j := by
    simp [hjoin]
  have h1 : anniversaryRule now [e] = (anniversaryAlertFor now e).toList := by
    unfold anniversaryRule
    rw [pipeline_singleton, if_pos hp]
  have h2 : anniversaryAlertFor now e =
      if 0 ≤ daysDifference now (mkDateYMD (getFullYear now) (getMonth j) (getDate j)) ∧
          daysDifference now (mkDateYMD (getFullYear now) (getMonth j) (getDate j)) ≤ 7 then
        some (mkAnniversaryAlert e (calculateYearsOfService now j))
      else none := by
    simp only [anniversaryAlertFor, hjb]
  have hcount : ∀ leaves : List LeaveRequest,
      (generateCriticalAlerts now [e] leaves).countP (fun a => a.type == "anniversary") =
        (anniversaryRule now [e]).length := by
    intro leaves
    rw [countP_generateCriticalAlerts]
    rw [countP_type_eq_length (anniversaryRule_types now [e]),
      countP_type_eq_zero (birthdayRule_types now [e]) (by decide),
      countP_type_eq_zero (contractRule_types now [e]) (by decide),
      countP_type_eq_zero (probationRule_types now [e]) (by decide),
      countP_type_eq_zero (leaveRule_types now leaves) (by decide)]
    omega
  by_cases hc : 0 ≤ daysDifference now (mkDateYMD (getFullYear now) (getMonth j) (getDate j)) ∧
      daysDifference now (mkDateYMD (getFullYear now) (getMonth j) (getDate j)) ≤ 7
  · rw [if_pos hc] at h2
    rw [h2] at h1
    refine ⟨by simp [h1, hc], fun hn => absurd hc hn, ?_, ?_, ?_, by decide, by decide⟩
    · intro a ha
      rw [h1] at ha
      simp only [Option.toList_some, List.mem_singleton] at ha
      subst ha
      exact ⟨rfl, rfl, rfl, rfl⟩
    · intro es
      unfold anniversaryRule
      exact pipeline_cons _ _ e es
    · intro leaves
      rw [hcount leaves, if_pos hc, h1]
      simp
  · rw [if_neg hc] at h2
    rw [h2] at h1
    simp only [Option.toList_none] at h1
    refine ⟨by simp [h1, hc], fun _ => h1, ?_, ?_, ?_, by decide, by decide⟩
    · intro a ha
      rw [h1] at ha
      exact absurd ha (List.not_mem_nil a)
    · intro es
      unfold anniversaryRule
      exact pipeline_cons _ _ e es
    · intro leaves
      rw [hcount leaves, if_neg hc, h1]
      rfl

/-- Witness for C6: days-until-anniversary exactly 7. -/
theorem claim_C6_witness : (anniversaryRule (mkDateYMD 2025 0 3) [anniversaryDemoEmp]).length = 1 :=
  ((claim_C6_anniversary_alerts (mkDateYMD 2025 0 3) anniversaryDemoEmp (mkDateYMD 2020 0 10) 7
    rfl rfl (by decide)).1).mpr (by decide)

/-! ### Demo input producing one alert of each priority in reverse rule order -/

def sortDemoNow : Int := mkDateYMD 2025 5 15

/-- Contract ends in 20 days: a low-priority alert from the first rule. -/
def sortDemoContractEmp : Employee :=
  { full_name := "Citra", gender := "Female", is_active := true, is_resigned := false,
    employment_status := "Permanent", birth_date := none, join_date := none,
    current_contract_end := some (some (mkDateYMD 2025 6 5)) }

/-- Birthday today: a medium-priority alert from the second rule. -/
def sortDemoBirthdayEmp : Employee :=
  { full_name := "Budi", gender := "Male", is_active := true, is_resigned := false,
    employment_status := "Permanent", birth_date := some (some (mkDateYMD 1990 5 15)),
    join_date := none, current_contract_end := none }

/-- Pending for 6 days: a high-priority alert from the last rule. -/
def sortDemoLeave : LeaveRequest :=
  { namaLengkap := "Dewi", status := some "pending",
    timestamp := some (some (mkDateYMD 2025 5 9)), tanggalPermohonan := none }

/-- Claim C4: `generateCriticalAlerts` returns the collected alerts stably
sorted ascending by priority rank (high = 1, medium = 2, low = 3): the output
is pairwise ordered by rank, and for each rank the subsequence of that rank
equals the corresponding subsequence of the unsorted rule-order collection
(contract, birthday, anniversary, probation, leave_pending, each rule in
input order); on an input producing one alert of each priority in reverse
rule order the output is ordered high, medium, low. -/
theorem claim_C4_sorted_stable (now : Int) (emps : List Employee)
    (leaves : List LeaveRequest) :
    (generateCriticalAlerts now emps leaves).Pairwise alertLE ∧
    (∀ n : Nat,
      (generateCriticalAlerts now emps leaves).filter
          (fun a => priorityOrder a.priority == n) =
        (collectAlerts now emps leaves).filter
          (fun a => priorityOrder a.priority == n)) ∧
    List.Perm (generateCriticalAlerts now emps leaves) (collectAlerts now emps leaves) ∧
    collectAlerts now emps leaves =
      contractRule now emps ++ birthdayRule now emps ++ anniversaryRule now emps ++
        probationRule now emps ++ leaveRule now leaves ∧
    ((collectAlerts sortDemoNow [sortDemoContractEmp, sortDemoBirthdayEmp]
        [sortDemoLeave]).map (fun a => (a.type, a.priority)) =
      [("contract", "low"), ("birthday", "medium"), ("leave_pending", "high")]) ∧
    ((generateCriticalAlerts sortDemoNow [sortDemoContractEmp, sortDemoBirthdayEmp]
        [sortDemoLeave]).map (fun a => (a.type, a.priority)) =
      [("leave_pending", "high"), ("birthday", "medium"), ("contract", "low")]) :=
  ⟨stableSort_sorted _, fun n => filter_stableSort n _, stableSort_perm _, rfl,
    by decide, by decide⟩

/-! ### Rules skip a record whose relevant date does not parse -/

theorem pipeline_skip {α β : Type} (p : α → Bool) (f : α → Option β)
    (pre post : List α) (e : α) (h : (([e].filter p).filterMap f) = []) :
    (((pre ++ e :: post).filter p).filterMap f) =
      (((pre ++ post).filter p).filterMap f) := by
  rw [pipeline_append, pipeline_cons, h, pipeline_append]
  simp

theorem contractRule_elim (now : Int) (e : Employee)
    (hc : e.current_contract_end.bind id = none) : contractRule now [e] = [] := by
  unfold contractRule
  rw [pipeline_singleton]
  split
  · rcases hcc : e.current_contract_end with _ | (_ | t)
    · simp [contractAlertFor, hcc]
    · simp [contractAlertFor, hcc]
    · rw [hcc] at hc
      simp at hc
  · rfl

theorem birthdayRule_elim (now : Int) (e : Employee)
    (hb : e.birth_date.bind id = none) : birthdayRule now [e] = [] := by
  unfold birthdayRule
  rw [pipeline_singleton]
  split
  · rcases hbb : e.birth_date with _ | (_ | b)
    · simp [birthdayAlertFor, hbb, getBirthdayThisYear, isToday]
    · simp [birthdayAlertFor, hbb, getBirthdayThisYear, isToday]
    · rw [hbb] at hb
      simp at hb
  · rfl

theorem anniversaryRule_elim (now : Int) (e : Employee)
    (hj : e.join_date.bind id = none) : anniversaryRule now [e] = [] := by
  unfold anniversaryRule
  rw [pipeline_singleton]
  split
  · rcases hjj : e.join_date with _ | (_ | j)
    · simp [anniversaryAlertFor, hjj]
    · simp [anniversaryAlertFor, hjj]
    · rw [hjj] at hj
      simp at hj
  · rfl

theorem probationRule_elim (now : Int) (e : Employee)
    (hj : e.join_date.bind id = none) : probationRule now [e] = [] := by
  unfold probationRule
  rw [pipeline_singleton]
  split
  · rcases hjj : e.join_date with _ | (_ | j)
    · simp [probationAlertFor, hjj]
    · simp [probationAlertFor, hjj]
    · rw [hjj] at hj
      simp at hj
  · rfl

theorem leaveRule_elim (now : Int) (l : LeaveRequest)
    (hr : requestParse l = none) : leaveRule now [l] = [] := by
  unfold leaveRule
  rw [pipeline_singleton]
  split
  · simp [leaveAlertFor, hr]
  · rfl

/-- Claim C8: a record whose dates are absent or unparseable contributes no
alert and does not disturb the others: evaluation is total (the embedding is
a total function, matching the JS `NaN` comparisons all being false), and the
output over a list containing such a record equals the output with the record
removed; likewise for a leave request whose request timestamp does not
parse. -/
theorem claim_C8_malformed_record_skipped (now : Int) (pre post : List Employee)
    (leaves : List LeaveRequest) (e : Employee)
    (hb : e.birth_date.bind id = none)
    (hj : e.join_date.bind id = none)
    (hc : e.current_contract_end.bind id = none) :
    generateCriticalAlerts now (pre ++ e :: post) leaves =
      generateCriticalAlerts now (pre ++ post) leaves ∧
    (∀ lpre lpost : List LeaveRequest, ∀ l : LeaveRequest, requestParse l = none →
      ∀ emps : List Employee,
        generateCriticalAlerts now emps (lpre ++ l :: lpost) =
          generateCriticalAlerts now emps (lpre ++ lpost)) := by
  constructor
  · have h1 : contractRule now (pre ++ e :: post) = contractRule now (pre ++ post) :=
      pipeline_skip _ _ pre post e (contractRule_elim now e hc)
    have h2 : birthdayRule now (pre ++ e :: post) = birthdayRule now (pre ++ post) :=
      pipeline_skip _ _ pre post e (birthdayRule_elim now e hb)
    have h3 : anniversaryRule now (pre ++ e :: post) = anniversaryRule now (pre ++ post) :=
      pipeline_skip _ _ pre post e (anniversaryRule_elim now e hj)
    have h4 : probationRule now (pre ++ e :: post) = probationRule now (pre ++ post) :=
      pipeline_skip _ _ pre post e (probationRule_elim now e hj)
    unfold generateCriticalAlerts collectAlerts
    rw [h1, h2, h3, h4]
  · intro lpre lpost l hr emps
    have h5 : leaveRule now (lpre ++ l :: lpost) = leaveRule now (lpre ++ lpost) :=
      pipeline_skip _ _ lpre lpost l (leaveRule_elim now l hr)
    unfold generateCriticalAlerts collectAlerts
    rw [h5]

/-- An active probationary employee all of whose date fields are present but
unparseable. -/
def badDateEmp : Employee :=
  { full_name := "bad", gender := "Male", is_active := true, is_resigned := false,
    employment_status := "Probation", birth_date := some none,
    join_date := some none, current_contract_end := some none }

/-- Witness for C8: the malformed record drops out of a mixed list. -/
theorem claim_C8_witness :
    generateCriticalAlerts 0 ([contractDemoEmp] ++ badDateEmp :: []) [] =
      generateCriticalAlerts 0 ([contractDemoEmp] ++ []) [] :=
  (claim_C8_malformed_record_skipped 0 [contractDemoEmp] [] [] badDateEmp rfl rfl rfl).1

/-! ### Claim C9: the reference instant and mid-run clock reads -/

theorem birthdayClocked_const (now : Int) :
    ∀ (k : Nat) (l : List Employee),
      birthdayRuleClocked (fun _ => now) k l = l.filterMap (birthdayAlertFor now) := by
  intro k l
  induction l generalizing k with
  | nil => rfl
  | cons e es ih =>
    by_cases hcond :
        isToday now (getBirthdayThisYear now (e.birth_date.bind fun a => a)) = true <;>
      simp [birthdayRuleClocked, birthdayAlertFor, List.filterMap_cons, hcond, ih]

theorem anniversaryClocked_const (now : Int) :
    ∀ (k : Nat) (l : List Employee),
      anniversaryRuleClocked (fun _ => now) now k l =
        l.filterMap (anniversaryAlertFor now) := by
  intro k l
  induction l generalizing k with
  | nil => rfl
  | cons e es ih =>
    rcases hj : (e.join_date.bind fun a => a : Option Int) with _ | j
    · simp [anniversaryRuleClocked, anniversaryAlertFor, List.filterMap_cons, hj, ih]
    · by_cases hcond :
          0 ≤ daysDifference now (mkDateYMD (getFullYear now) (getMonth j) (getDate j)) ∧
            daysDifference now (mkDateYMD (getFullYear now) (getMonth j) (getDate j)) ≤ 7 <;>
        simp [anniversaryRuleClocked, anniversaryAlertFor, List.filterMap_cons, hj,
          hcond, ih]

/-- Claim C9 (amended): with a frozen clock — no wall-clock advance during
evaluation — the clock-read-faithful model coincides with the pure function
of `(employees, leaveRequests, now)`, so the engine is deterministic in that
case.  (The unamended claim, that all five rules evaluate against the single
captured instant whatever the clock does mid-run, is refuted by
`claim_C9_counterexample`: the birthday and anniversary helpers re-read the
wall clock.) -/
theorem claim_C9_frozen_clock_deterministic (now : Int) (emps : List Employee)
    (leaves : List LeaveRequest) :
    generateCriticalAlertsClocked (fun _ => now) emps leaves =
      generateCriticalAlerts now emps leaves := by
  simp only [generateCriticalAlertsClocked, generateCriticalAlerts, collectAlerts]
  rw [birthdayClocked_const, anniversaryClocked_const]
  rfl

/-- Active employee born on the 1st of January. -/
def birthdayDriftEmp : Employee :=
  { full_name := "b", gender := "Male", is_active := true, is_resigned := false,
    employment_status := "Permanent", birth_date := some (some (mkDateYMD 1990 0 1)),
    join_date := none, current_contract_end := none }

/-- 2025-12-31, 23:00. -/
def driftT0 : Int := mkDateYMD 2025 11 31 + 23 * 3600000

/-- 2026-01-01, 00:30. -/
def driftT1 : Int := mkDateYMD 2026 0 1 + 30 * 60000

/-- A wall clock that advances across the year boundary after the reference
instant is captured: read 0 (line 478) returns `driftT0`, every later read
(the helper re-reads inside the birthday rule) returns `driftT1`. -/
def driftClock (k : Nat) : Int := if k = 0 then driftT0 else driftT1

/-- Counterexample to C9 as stated: the instant captured at the start is
`driftT0` in both runs and the inputs are identical, yet the run during
which the clock advances emits a birthday alert (the re-read helpers see
2026-01-01) while the frozen-clock run emits nothing, so the output is not a
function of `(employees, leaveRequests, now)`. -/
theorem claim_C9_counterexample :
    driftClock 0 = driftT0 ∧
    generateCriticalAlertsClocked driftClock [birthdayDriftEmp] [] ≠
      generateCriticalAlerts driftT0 [birthdayDriftEmp] [] :=
  ⟨rfl, by decide⟩
